import Mathlib

/-
Verification of the GraphQL relay handler in src/attached_assets/graphql (1).py.

The handler is embedded shallowly: Python JSON values become the inductive
type `Json`; the outbound `requests.post` call becomes an oracle of type
`OutboundRequest → PostResult` supplied as a parameter; exceptions become
`Except Exn` values; the Flask response `(jsonify body, status)` becomes a
`Json × Nat` pair.  `graphql_query_trace` additionally records the list of
outbound requests issued during one invocation, so that frame properties
(exactly which network calls happen) can be stated.
-/

namespace OpalEth

/-- JSON values, as Python represents a parsed JSON document
(None, bool, int, str, list, dict). -/
inductive Json where
  | null : Json
  | bool : Bool → Json
  | num : Int → Json
  | str : String → Json
  | arr : List Json → Json
  | obj : List (String × Json) → Json

/-- A caught Python exception, reduced to its string representation
(the value of `str(e)` in the handler's except branch). -/
structure Exn where
  msg : String
deriving DecidableEq

/-- Outcome of the outbound `requests.post` call: either the call raised
(timeout, connection error, ...), or it completed with a status code and a
body whose JSON parse (`response.json()`) either succeeds or raises. -/
inductive PostResult where
  | success : Nat → Except Exn Json → PostResult
  | failure : Exn → PostResult

/-- The hardcoded upstream URL, line 7 of the source. -/
def graphql_url : String :=
  "https://gateway-arbitrum.network.thegraph.com/api/7ad5dec0c95579e6812957254486d013/subgraphs/id/HUZDsRpEVP2AvzDCyzDHtdc64dyDxx8FQjzsmqSg4H3B"

/-- One outbound network call as issued by `requests.post(graphql_url,
json=..., timeout=60)`: target URL, JSON payload, timeout in seconds. -/
structure OutboundRequest where
  url : String
  payload : Json
  timeout : Nat

/-- A single-quote character, used in Python exception messages. -/
def sq : String := "\x27"

/-- The Python type name of a JSON value, as it appears in an
AttributeError message. -/
def pyTypeName : Json → String
  | .null => "NoneType"
  | .bool _ => "bool"
  | .num _ => "int"
  | .str _ => "str"
  | .arr _ => "list"
  | .obj _ => "dict"

/-- The message of the AttributeError raised by `x.get(...)` when `x` is
not a dict. -/
def attrErrMsg (j : Json) : String :=
  sq ++ pyTypeName j ++ sq ++ " object has no attribute " ++ sq ++ "get" ++ sq

/-- Python `d.get(k)` on a parsed JSON value: on a dict it returns the
value at `k`, or None when the key is absent; on any other value it raises
an AttributeError.  Embeds line 13 of the source. -/
def jsonGet : Json → String → Except Exn Json
  | .obj kvs, k => .ok ((kvs.lookup k).getD .null)
  | j, _ => .error ⟨attrErrMsg j⟩

/-- Evaluation of `request.json.get("query")`: `inbound` is the result of
the `request.json` access (which itself may raise), then `.get` is applied.
Both failure points funnel into the handler's except branch. -/
def queryExtract (inbound : Except Exn Json) : Except Exn Json :=
  inbound.bind (fun j => jsonGet j "query")

/-- The outbound request built on line 16 of the source:
`requests.post(graphql_url, json={"query": query}, timeout=60)`. -/
def mkReq (q : Json) : OutboundRequest :=
  { url := graphql_url, payload := Json.obj [("query", q)], timeout := 60 }

/-- The error body `{"error": s}` produced by `jsonify({"error": ...})`. -/
def errBody (s : String) : Json :=
  Json.obj [("error", Json.str s)]

/-- Mapping of the upstream outcome to the handler response, lines 19 to 25
of the source: on status 200 parse the body and return it with 200, where a
parse exception falls into the except branch; on any other status return
the fixed error body with 500; a raised call falls into the except branch,
which returns the stringified exception with 500. -/
def respond : PostResult → Json × Nat
  | .failure e => (errBody e.msg, 500)
  | .success status bodyParse =>
    if status = 200 then
      match bodyParse with
      | .ok data => (data, 200)
      | .error e => (errBody e.msg, 500)
    else
      (errBody "GraphQL query failed", 500)

/-- The full handler `graphql_query`, lines 10 to 25 of the source,
instrumented with the list of outbound requests issued.  `upstream` is the
environment's behaviour of `requests.post`.  An exception during
`request.json` access or query extraction reaches the except branch before
any outbound call is made, so the trace is then empty. -/
def graphql_query_trace (inbound : Except Exn Json)
    (upstream : OutboundRequest → PostResult) : (Json × Nat) × List OutboundRequest :=
  match queryExtract inbound with
  | .error e => ((errBody e.msg, 500), [])
  | .ok q => (respond (upstream (mkReq q)), [mkReq q])

/-- The handler's observable response: body and HTTP status. -/
def graphql_query (inbound : Except Exn Json)
    (upstream : OutboundRequest → PostResult) : Json × Nat :=
  (graphql_query_trace inbound upstream).1

/-- Whether a JSON value is a mapping (a Python dict). -/
def isObj : Json → Bool
  | .obj _ => true
  | _ => false

/-- A sample upstream behaviour used in witnesses: always status 200 with
body `{"data": null}`. -/
def uOk : OutboundRequest → PostResult :=
  fun _ => .success 200 (.ok (Json.obj [("data", Json.null)]))

/-- A sample upstream behaviour used in witnesses: always status 503. -/
def uBad : OutboundRequest → PostResult :=
  fun _ => .success 503 (.ok Json.null)

/-- A sample upstream behaviour used in witnesses: the call always raises a
timeout exception. -/
def uTimeout : OutboundRequest → PostResult :=
  fun _ => .failure ⟨"HTTPSConnectionPool: Read timed out. (read timeout=60)"⟩

/-- A sample inbound body `{"query": "{ pools { id } }"}` matching the
concrete scenario of the spec. -/
def sampleInbound : Json :=
  Json.obj [("query", Json.str "\x7b pools \x7b id \x7d \x7d")]

/-- The query value contained in `sampleInbound`. -/
def sampleQuery : Json := Json.str "\x7b pools \x7b id \x7d \x7d"

/-- C1: for every inbound request where the upstream call completes with
HTTP status 200 and the upstream body parses as a JSON value B, the
handler's response body equals B exactly and the response status is 200. -/
theorem relay_pass_on_200 (inbound : Except Exn Json)
    (u : OutboundRequest → PostResult) (q B : Json)
    (hq : queryExtract inbound = .ok q)
    (hu : u (mkReq q) = .success 200 (.ok B)) :
    graphql_query inbound u = (B, 200) := by
  simp [graphql_query, graphql_query_trace, hq, respond, hu]

/-- Witness for C1 on the spec's concrete scenario. -/
theorem relay_pass_on_200_witness :
    graphql_query (.ok sampleInbound) uOk = (Json.obj [("data", Json.null)], 200) :=
  relay_pass_on_200 (.ok sampleInbound) uOk sampleQuery
    (Json.obj [("data", Json.null)]) rfl rfl

/-- C2: for every inbound request where the upstream call completes with a
status other than 200, the handler responds with exactly
`{"error": "GraphQL query failed"}` and status 500, whatever the upstream
body was. -/
theorem relay_non200_fixed_error (inbound : Except Exn Json)
    (u : OutboundRequest → PostResult) (q : Json) (s : Nat)
    (bp : Except Exn Json)
    (hq : queryExtract inbound = .ok q)
    (hu : u (mkReq q) = .success s bp) (hs : s ≠ 200) :
    graphql_query inbound u = (errBody "GraphQL query failed", 500) := by
  simp [graphql_query, graphql_query_trace, hq, respond, hu, hs]

/-- Witness for C2 with upstream status 503. -/
theorem relay_non200_fixed_error_witness :
    graphql_query (.ok sampleInbound) uBad = (errBody "GraphQL query failed", 500) :=
  relay_non200_fixed_error (.ok sampleInbound) uBad sampleQuery 503
    (.ok Json.null) rfl rfl (by decide)

/-- C3: for every inbound JSON body that is a mapping containing a `query`
field, the single outbound POST carries the JSON payload
`{"query": v}` where v is the inbound `query` value, unmodified. -/
theorem outbound_payload_verbatim (kvs : List (String × Json)) (v : Json)
    (u : OutboundRequest → PostResult)
    (hl : kvs.lookup "query" = some v) :
    (graphql_query_trace (.ok (Json.obj kvs)) u).2 =
      [{ url := graphql_url, payload := Json.obj [("query", v)], timeout := 60 }] := by
  simp [graphql_query_trace, queryExtract, Except.bind, jsonGet, hl, mkReq]

/-- Witness for C3 on the spec's concrete scenario. -/
theorem outbound_payload_verbatim_witness :
    (graphql_query_trace (.ok sampleInbound) uOk).2 =
      [{ url := graphql_url, payload := Json.obj [("query", sampleQuery)], timeout := 60 }] :=
  outbound_payload_verbatim [("query", sampleQuery)] sampleQuery uOk rfl

/-- C4: if an exception is raised during query extraction, during the
outbound call, or while parsing the 200 upstream response, the handler
returns `{"error": s}` with s the string representation of the exception,
status 500, and the exception does not propagate. -/
theorem relay_exception_to_500 (inbound : Except Exn Json)
    (u : OutboundRequest → PostResult) (e : Exn)
    (h : queryExtract inbound = .error e
      ∨ (∃ q, queryExtract inbound = .ok q ∧ u (mkReq q) = .failure e)
      ∨ (∃ q, queryExtract inbound = .ok q ∧ u (mkReq q) = .success 200 (.error e))) :
    graphql_query inbound u = (errBody e.msg, 500) := by
  rcases h with h | ⟨q, hq, hu⟩ | ⟨q, hq, hu⟩
  · simp [graphql_query, graphql_query_trace, h]
  · simp [graphql_query, graphql_query_trace, hq, respond, hu]
  · simp [graphql_query, graphql_query_trace, hq, respond, hu]

/-- Witness for C4 with an exception raised while reading the inbound
body. -/
theorem relay_exception_to_500_witness :
    graphql_query (.error ⟨"boom"⟩) uOk = (errBody "boom", 500) :=
  relay_exception_to_500 (.error ⟨"boom"⟩) uOk ⟨"boom"⟩ (Or.inl rfl)

/-- C5: the handler always returns a body and a status without propagating
a failure, the status is always 200 or 500, and it is 200 exactly when
query extraction succeeded, the upstream call returned status 200, and the
upstream body parsed as JSON. -/
theorem relay_total_and_status (inbound : Except Exn Json)
    (u : OutboundRequest → PostResult) :
    ((graphql_query inbound u).2 = 200 ∨ (graphql_query inbound u).2 = 500)
    ∧ ((graphql_query inbound u).2 = 200 ↔
        ∃ q B, queryExtract inbound = .ok q
          ∧ u (mkReq q) = .success 200 (.ok B)) := by
  unfold graphql_query graphql_query_trace
  cases hq : queryExtract inbound with
  | error e => simp [hq]
  | ok q =>
    cases hu : u (mkReq q) with
    | failure e => simp [respond, hu, hq]
    | success s bp =>
      by_cases hs : s = 200
      · subst hs
        cases bp with
        | ok B => simp [respond, hu, hq]
        | error e => simp [respond, hu, hq]
      · simp [respond, hu, hq, hs]

/-- Witness for C5 on the spec's concrete scenario. -/
theorem relay_total_and_status_witness :
    ((graphql_query (.ok sampleInbound) uOk).2 = 200
      ∨ (graphql_query (.ok sampleInbound) uOk).2 = 500)
    ∧ ((graphql_query (.ok sampleInbound) uOk).2 = 200 ↔
        ∃ q B, queryExtract (.ok sampleInbound) = .ok q
          ∧ uOk (mkReq q) = .success 200 (.ok B)) :=
  relay_total_and_status (.ok sampleInbound) uOk

/-- C6: if the inbound JSON body is a mapping with no `query` field, the
handler does not fail at extraction: it issues the outbound call with
payload `{"query": null}` and maps the upstream outcome through the same
rules as when a query is present. -/
theorem relay_missing_query (kvs : List (String × Json))
    (u : OutboundRequest → PostResult)
    (h : kvs.lookup "query" = none) :
    graphql_query_trace (.ok (Json.obj kvs)) u =
      (respond (u (mkReq Json.null)), [mkReq Json.null]) := by
  simp [graphql_query_trace, queryExtract, Except.bind, jsonGet, h]

/-- Witness for C6 on the empty mapping. -/
theorem relay_missing_query_witness :
    graphql_query_trace (.ok (Json.obj [])) uOk =
      (respond (uOk (mkReq Json.null)), [mkReq Json.null]) :=
  relay_missing_query [] uOk rfl

/-- C7: whenever the outbound call is issued it targets the fixed upstream
URL with a 60 second timeout, and if the call raises a timeout exception
the handler responds `{"error": m}` with m the exception message, status
500. -/
theorem outbound_timeout_policy (inbound : Except Exn Json)
    (u : OutboundRequest → PostResult) (q : Json) (e : Exn)
    (hq : queryExtract inbound = .ok q)
    (hu : u (mkReq q) = .failure e) :
    (graphql_query_trace inbound u).2 = [mkReq q]
    ∧ (mkReq q).timeout = 60 ∧ (mkReq q).url = graphql_url
    ∧ graphql_query inbound u = (errBody e.msg, 500) := by
  refine ⟨?_, rfl, rfl, ?_⟩
  · simp [graphql_query_trace, hq]
  · simp [graphql_query, graphql_query_trace, hq, respond, hu]

/-- Witness for C7 with an upstream that raises a timeout. -/
theorem outbound_timeout_policy_witness :
    (graphql_query_trace (.ok sampleInbound) uTimeout).2 = [mkReq sampleQuery]
    ∧ (mkReq sampleQuery).timeout = 60 ∧ (mkReq sampleQuery).url = graphql_url
    ∧ graphql_query (.ok sampleInbound) uTimeout =
        (errBody "HTTPSConnectionPool: Read timed out. (read timeout=60)", 500) :=
  outbound_timeout_policy (.ok sampleInbound) uTimeout sampleQuery
    ⟨"HTTPSConnectionPool: Read timed out. (read timeout=60)"⟩ rfl rfl

/-- C8 counterexample: it is not the case that every invocation issues
exactly one outbound call; when the inbound body is a JSON array, query
extraction raises and no outbound call is made. -/
theorem single_call_counterexample :
    ¬ (∀ (inbound : Except Exn Json) (u : OutboundRequest → PostResult),
        ((graphql_query_trace inbound u).2).length = 1) := by
  intro h
  have h0 := h (.ok (Json.arr [])) uOk
  simp [graphql_query_trace, queryExtract, Except.bind, jsonGet] at h0

/-- C8 amended: every invocation issues at most one outbound call, with no
retries; exactly one call, to the fixed upstream URL, is issued whenever
query extraction succeeds, and no outbound call at all is made when query
extraction raises. -/
theorem at_most_one_call (inbound : Except Exn Json)
    (u : OutboundRequest → PostResult) :
    ((graphql_query_trace inbound u).2).length ≤ 1
    ∧ (∀ q, queryExtract inbound = .ok q →
        (graphql_query_trace inbound u).2 = [mkReq q])
    ∧ (∀ e, queryExtract inbound = .error e →
        (graphql_query_trace inbound u).2 = [])
    ∧ (∀ r ∈ (graphql_query_trace inbound u).2, r.url = graphql_url) := by
  cases hq : queryExtract inbound with
  | error e => simp [graphql_query_trace, hq]
  | ok q => simp [graphql_query_trace, hq, mkReq, graphql_url]

/-- Witness for C8 (amended) on the spec's concrete scenario. -/
theorem at_most_one_call_witness :
    ((graphql_query_trace (.ok sampleInbound) uOk).2).length ≤ 1
    ∧ (∀ q, queryExtract (.ok sampleInbound) = .ok q →
        (graphql_query_trace (.ok sampleInbound) uOk).2 = [mkReq q])
    ∧ (∀ e, queryExtract (.ok sampleInbound) = .error e →
        (graphql_query_trace (.ok sampleInbound) uOk).2 = [])
    ∧ (∀ r ∈ (graphql_query_trace (.ok sampleInbound) uOk).2, r.url = graphql_url) :=
  at_most_one_call (.ok sampleInbound) uOk

/-- C9: if the inbound body parses as JSON but is not a mapping, query
extraction raises an AttributeError, no outbound call is made, and the
handler responds `{"error": s}` with s the stringified exception, status
500. -/
theorem nonmapping_inbound_500 (j : Json)
    (u : OutboundRequest → PostResult) (h : isObj j = false) :
    (graphql_query_trace (.ok j) u).2 = []
    ∧ graphql_query (.ok j) u = (errBody (attrErrMsg j), 500) := by
  cases j <;>
    simp_all [isObj, graphql_query, graphql_query_trace, queryExtract,
      Except.bind, jsonGet]

/-- Witness for C9 on a JSON array body. -/
theorem nonmapping_inbound_500_witness :
    (graphql_query_trace (.ok (Json.arr [])) uOk).2 = []
    ∧ graphql_query (.ok (Json.arr [])) uOk =
        (errBody (attrErrMsg (Json.arr [])), 500) :=
  nonmapping_inbound_500 (Json.arr []) uOk rfl

/-- C10: the handler is deterministic and stateless: two invocations with
the same inbound body whose upstream environments agree on every request
produce identical responses and traces, and every outbound request uses
the constant upstream URL unchanged. -/
theorem handler_deterministic_pure (inbound : Except Exn Json)
    (u1 u2 : OutboundRequest → PostResult) (h : ∀ r, u1 r = u2 r) :
    graphql_query_trace inbound u1 = graphql_query_trace inbound u2
    ∧ ∀ r ∈ (graphql_query_trace inbound u1).2, r.url = graphql_url := by
  have hu : u1 = u2 := funext h
  subst hu
  refine ⟨rfl, ?_⟩
  cases hq : queryExtract inbound with
  | error e => simp [graphql_query_trace, hq]
  | ok q => simp [graphql_query_trace, hq, mkReq, graphql_url]

/-- Witness for C10 with identical upstream environments. -/
theorem handler_deterministic_pure_witness :
    graphql_query_trace (.ok sampleInbound) uOk =
      graphql_query_trace (.ok sampleInbound) uOk
    ∧ ∀ r ∈ (graphql_query_trace (.ok sampleInbound) uOk).2, r.url = graphql_url :=
  handler_deterministic_pure (.ok sampleInbound) uOk uOk (fun _ => rfl)

end OpalEth
